import Mathlib

/-!
Shallow embedding of the request gateway in `frontend/src/lib/api.js`
(Astrologi-Ai repository) and proofs about its origin-fallback, error
normalization and domain-builder behaviour.

JavaScript values flowing through the gateway are modelled by the inductive
type `Js` below (JS `undefined` is `Js.undef`, `null` is `Js.null`; numbers
are modelled as integers, NaN is not modelled since no code path here
produces it). The axios transport is modelled as a function from the
attempt index and the request descriptor (method, url, payload) to an
outcome; the fixed `Content-Type` header and the 15000 ms timeout of the
axios call are constants of every attempt and carry no information, so they
are omitted from the descriptor. The module-level mutable `activeBaseUrl`
is threaded explicitly: `request` takes the current value and returns the
(possibly updated) value next to its result. A thrown JS error is an
`Except.error` carrying the value passed to `new Error(...)`.
-/

namespace Api

/-- JavaScript values (the subset the gateway manipulates). -/
inductive Js where
  | undef : Js
  | null : Js
  | bool : Bool → Js
  | num : Int → Js
  | str : String → Js
  | obj : List (String × Js) → Js
  | arr : List Js → Js

/-- JS truthiness: `undefined`, `null`, `false`, `0` and `""` are falsy;
objects and arrays are always truthy. -/
def truthy : Js → Bool
  | Js.undef => false
  | Js.null => false
  | Js.bool b => b
  | Js.num n => n != 0
  | Js.str s => s != ""
  | Js.obj _ => true
  | Js.arr _ => true

/-- Field lookup in an object's binding list (first binding wins),
`undefined` when the key is absent. -/
def lookupField : List (String × Js) → String → Js
  | [], _ => Js.undef
  | p :: rest, k => if p.1 == k then p.2 else lookupField rest k

/-- Optional-chaining property read `j?.k`: field lookup on objects,
`undefined` on everything else. -/
def jsGet : Js → String → Js
  | Js.obj fields, k => lookupField fields k
  | _, _ => Js.undef

/-- JS `a || b`. -/
def jsOr (a b : Js) : Js := if truthy a then a else b

/-- JS `{ ...j, k: v }` (equally, the assignment `j.k = v` on a copy):
on an object, rebind the field `k`; spreading a non-object contributes no
fields (string index-spreading is not modelled: no key used by the gateway
is numeric). -/
def Js.set : Js → String → Js → Js
  | Js.obj fields, k, v => Js.obj ((fields.filter (fun p => p.1 != k)) ++ [(k, v)])
  | _, k, v => Js.obj [(k, v)]

/-- Plain (non-optional) property read `j.k`: throws a `TypeError` when the
receiver is `null` or `undefined`, otherwise like `jsGet`. -/
def jsGetProp (j : Js) (k : String) : Except Js Js :=
  match j with
  | Js.undef => Except.error (Js.str "TypeError")
  | Js.null => Except.error (Js.str "TypeError")
  | _ => Except.ok (jsGet j k)

end Api

namespace Api

/-- An HTTP response attached to an axios error (`error.response`). -/
structure HttpResponse where
  status : Nat
  data : Js

/-- An axios failure object: `response` is absent when no HTTP response was
received, `code` is the axios error code, `message` the JS `Error` message. -/
structure AxiosErr where
  response : Option HttpResponse
  code : Option String
  message : String

/-- Outcome of one axios attempt: fulfilled with the decoded body, or
rejected with an error object. -/
inductive AxiosOutcome where
  | success : Js → AxiosOutcome
  | failure : AxiosErr → AxiosOutcome

/-- The network environment: outcome of the attempt numbered `attempt`
for a given method, url and payload. -/
def Transport := Nat → String → String → Js → AxiosOutcome

def LOCAL_DEFAULT_URL : String := "http://localhost:5000"

def REMOTE_FALLBACK_URL : String := "https://astrolog-ai.onrender.com"

/-- `pat` occurs contiguously at the head of `hay`. -/
def startsWithChars : List Char → List Char → Bool
  | _, [] => true
  | [], _ :: _ => false
  | h :: hs, p :: ps => h == p && startsWithChars hs ps

/-- `pat` occurs contiguously somewhere in `hay`. -/
def hasSubstr : List Char → List Char → Bool
  | [], pat => pat.isEmpty
  | h :: t, pat => startsWithChars (h :: t) pat || hasSubstr t pat

/-- JS `s.startsWith(pre)`. (Stated over the underlying character list so
that concrete instances evaluate inside the kernel.) -/
def strStartsWith (s pre : String) : Bool :=
  startsWithChars s.data pre.data

/-- JS `s.endsWith(suf)`. -/
def strEndsWith (s suf : String) : Bool :=
  startsWithChars s.data.reverse suf.data.reverse

/-- JS `s.slice(0, -1)`: the string without its last character. -/
def strDropLast (s : String) : String := ⟨s.data.dropLast⟩

/-- An ASCII whitespace character (the whitespace relevant to the base
URLs this gateway handles). -/
def isWsChar (c : Char) : Bool :=
  c == ' ' || c == '\t' || c == '\n' || c == '\r'

/-- JS `s.trim()`: strip leading and trailing whitespace. -/
def strTrim (s : String) : String :=
  ⟨((s.data.dropWhile isWsChar).reverse.dropWhile isWsChar).reverse⟩

/-- Case folding of a character sequence (sufficient for the ASCII message
patterns matched by the gateway). -/
def lowerChars (l : List Char) : List Char := l.map Char.toLower

/-- `.replace(/\/$/, "")`: drop a single trailing slash if present (also the
shape of the base normalization inside `makeUrl`). -/
def stripTrailingSlash (s : String) : String :=
  if strEndsWith s "/" then strDropLast s else s

/-- `(import.meta.env?.VITE_API_URL && import.meta.env.VITE_API_URL.trim()) ||
LOCAL_DEFAULT_URL`: the env var models as `Option String`; an absent or
empty variable, or one that trims to empty, falls back to the local default. -/
def initialBase (viteApiUrl : Option String) : String :=
  match viteApiUrl with
  | none => LOCAL_DEFAULT_URL
  | some s =>
    if s = "" then LOCAL_DEFAULT_URL
    else if strTrim s = "" then LOCAL_DEFAULT_URL
    else strTrim s

/-- Initial value of the module-level `activeBaseUrl`. -/
def initialActiveBaseUrl (viteApiUrl : Option String) : String :=
  stripTrailingSlash (initialBase viteApiUrl)

/-- `makeUrl(base, path)` from api.js: empty path returns the base; an
http/https path is used verbatim; otherwise the base without trailing slash
is concatenated with the path, a leading slash being added if missing. -/
def makeUrl (base path : String) : String :=
  if path = "" then base
  else if strStartsWith path "http://" || strStartsWith path "https://" then
    path
  else
    (if strEndsWith base "/" then strDropLast base else base) ++
      (if strStartsWith path "/" then path else "/" ++ path)

/-- The regex test `/Network Error/i.test(msg)`: case-insensitive substring
search for "network error". -/
def testNetworkErrorPattern (msg : String) : Bool :=
  hasSubstr (lowerChars msg.data) (lowerChars "Network Error".data)

/-- The `isNetworkError` classification inside `request`'s catch block:
no HTTP response was received, and the error's code or message marks it as
a network error (`error.message || ""` collapses to `error.message` since
the message is modelled as a `String`). -/
def isNetworkError (error : AxiosErr) : Bool :=
  error.response.isNone &&
    (error.code == some "ERR_NETWORK" ||
      error.message == "Network Error" ||
      testNetworkErrorPattern error.message)

/-- `error.response?.status === 404`. -/
def respStatus404 (error : AxiosErr) : Bool :=
  match error.response with
  | some r => r.status == 404
  | none => false

/-- `error.response?.data?.k` for a field name `k`. -/
def respData (error : AxiosErr) (k : String) : Js :=
  match error.response with
  | some r => jsGet r.data k
  | none => Js.undef

/-- `extractMessage(error)` from api.js: the response body's `error`,
`message` or `detail` field (first truthy one), else the error's own
message, else the fixed Turkish fallback string. The argument is
`Option AxiosErr` so that the JS guard `if (!error)` is representable. -/
def extractMessage (error : Option AxiosErr) : Js :=
  let fallback := Js.str "İstek sırasında bir sorun oluştu. Lütfen tekrar dene."
  match error with
  | none => fallback
  | some e =>
    let responseMessage :=
      jsOr (respData e "error") (jsOr (respData e "message") (respData e "detail"))
    if truthy responseMessage then responseMessage
    else jsOr (Js.str e.message) fallback

/-- `request(method, path, payload, attempt)` from api.js. The module-level
`activeBaseUrl` is the explicit `st` argument and is returned next to the
result. On a fulfilled attempt the decoded body is returned. On a rejected
attempt: if this is the first attempt, the failure is a network-level one
and the active origin is still the local default, the origin switches to
the remote fallback and the same request is retried once; otherwise a GET
that received a 404 response resolves to `null`, and anything else throws
`new Error(extractMessage(error))`. The guard `attempt == 0` in the retry
condition bounds the recursion. -/
def request (t : Transport) (st : String) (method path : String)
    (payload : Js) (attempt : Nat) : String × Except Js Js :=
  let url := makeUrl st path
  match t attempt method url payload with
  | AxiosOutcome.success data => (st, Except.ok data)
  | AxiosOutcome.failure error =>
    if h : (attempt == 0 && isNetworkError error &&
        st == LOCAL_DEFAULT_URL) = true then
      request t REMOTE_FALLBACK_URL method path payload (attempt + 1)
    else
      if method == "get" && respStatus404 error then (st, Except.ok Js.null)
      else (st, Except.error (extractMessage (some error)))
termination_by 1 - attempt
decreasing_by
  simp only [Bool.and_eq_true, beq_iff_eq, Nat.beq_eq_true_eq] at h
  omega

/-- How a single non-retryable attempt settles: success returns the body, a
GET that got a 404 response resolves to `null`, anything else throws the
extracted message. (Factors the tail of `request`'s catch block, for use in
theorem statements.) -/
def settleOne (method : String) (o : AxiosOutcome) : Except Js Js :=
  match o with
  | AxiosOutcome.success data => Except.ok data
  | AxiosOutcome.failure error =>
    if method == "get" && respStatus404 error then Except.ok Js.null
    else Except.error (extractMessage (some error))

/-- `const post = (path, payload) => request("post", path, payload)`. -/
def post (t : Transport) (st : String) (path : String) (payload : Js) :
    String × Except Js Js :=
  request t st "post" path payload 0

/-- `const put = (path, payload) => request("put", path, payload)`. -/
def put (t : Transport) (st : String) (path : String) (payload : Js) :
    String × Except Js Js :=
  request t st "put" path payload 0

/-- `const get = (path) => request("get", path)`: the omitted payload is
JS `undefined`. -/
def get (t : Transport) (st : String) (path : String) :
    String × Except Js Js :=
  request t st "get" path Js.undef 0

/-- `calculateNatalChart(payload)`. -/
def calculateNatalChart (t : Transport) (st : String) (payload : Js) :
    String × Except Js Js :=
  post t st "/natal-chart" payload

/-- `buildLifeBundle(data, strategy)` from api.js (default strategy is
"primary" at its call site in `getInterpretation`). -/
def buildLifeBundle (data : Js) (strategy : String) : Js :=
  let story := jsOr (jsGet data "life_narrative") Js.null
  let meta := jsOr (jsGet data "meta") Js.null
  let legacy :=
    jsOr (jsGet data "life_legacy")
      (jsOr (jsGet (jsGet data "archetype") "life_narrative") Js.null)
  Js.obj [("story", story), ("meta", meta), ("legacy", legacy),
    ("strategy", Js.str strategy)]

/-- Chart preparation at the head of `getInterpretation` (and of
`getAlternateNarrative`): a string input is JSON-parsed, a parse failure
degrades to `null`; any other input passes through. `JSON.parse` is the
platform's parser, modelled as the `parse` argument (`none` = the parser
throws). -/
def prepareChart (parse : String → Option Js) (chartData : Js) : Js :=
  match chartData with
  | Js.str s =>
    match parse s with
    | some v => v
    | none => Js.null
  | _ => chartData

/-- The inline fallback card object built inside `getInterpretation`. -/
def fallbackLifeCard (legacyText : Js) : Js :=
  Js.obj [("title", Js.str "Hayat Anlatısı"),
    ("narrative", Js.obj [("main", legacyText)]),
    ("reasons", Js.obj [("psychology", Js.arr [])]),
    ("actions", Js.arr []),
    ("tags", Js.arr []),
    ("confidence_label", Js.str "Dengeli")]

/-- `bundle?.legacy?.text || data?.text || ""`: the legacy narrative text
used for the fallback card (the bundle is the one `getInterpretation`
builds from the same response). -/
def legacyTextOf (data : Js) : Js :=
  jsOr (jsGet (jsGet (buildLifeBundle data "primary") "legacy") "text")
    (jsOr (jsGet data "text") (Js.str ""))

/-- The post-processing of a fulfilled `/interpretation` response inside
`getInterpretation`: attach the life bundle, and when `data?.cards?.life`
is falsy overwrite `cards` with a copy holding the fallback card. -/
def interpretationPrepared (data : Js) : Js :=
  let bundle := buildLifeBundle data "primary"
  let prepared := Js.set data "life_bundle" bundle
  if truthy (jsGet (jsGet data "cards") "life") then prepared
  else
    Js.set prepared "cards"
      (Js.set (jsOr (jsGet data "cards") (Js.obj [])) "life"
        (fallbackLifeCard (legacyTextOf data)))

/-- `getInterpretation(chartData)` from api.js. -/
def getInterpretation (parse : String → Option Js) (t : Transport)
    (st : String) (chartData : Js) : String × Except Js Js :=
  let preparedChart := prepareChart parse chartData
  match post t st "/interpretation"
      (Js.obj [("chart", preparedChart), ("chart_data", preparedChart)]) with
  | (st', Except.ok data) => (st', Except.ok (interpretationPrepared data))
  | (st', Except.error e) => (st', Except.error e)

/-- `getAlternateNarrative(chartData, strategy)` from api.js. -/
def getAlternateNarrative (parse : String → Option Js) (t : Transport)
    (st : String) (chartData : Js) (strategy : String) :
    String × Except Js Js :=
  let preparedChart := prepareChart parse chartData
  match post t st "/interpretation"
      (Js.obj [("chart", preparedChart), ("chart_data", preparedChart),
        ("alt_strategy", Js.str strategy)]) with
  | (st', Except.ok data) => (st', Except.ok (buildLifeBundle data strategy))
  | (st', Except.error e) => (st', Except.error e)

/-- `calculateSynastry(payload)`. -/
def calculateSynastry (t : Transport) (st : String) (payload : Js) :
    String × Except Js Js :=
  post t st "/calculate_synastry_chart" payload

/-- `saveUserProfile(profile)`. -/
def saveUserProfile (t : Transport) (st : String) (profile : Js) :
    String × Except Js Js :=
  post t st "/api/profile" profile

/-- `updateUserProfile(profile)`. -/
def updateUserProfile (t : Transport) (st : String) (profile : Js) :
    String × Except Js Js :=
  put t st "/api/profile" profile

/-- `fetchUserProfile(email)` from api.js; `encodeURIComponent` is the
platform's encoder, passed as the `encode` argument. -/
def fetchUserProfile (encode : String → String) (t : Transport)
    (st : String) (email : String) : String × Except Js Js :=
  if email = "" then
    (st, Except.error (Js.str "Profil için e-posta sağlanmalı."))
  else
    match get t st ("/api/profile?email=" ++ encode email) with
    | (st', Except.error e) => (st', Except.error e)
    | (st', Except.ok result) =>
      if truthy result = false then (st', Except.ok Js.null)
      else
        match jsGet result "profile" with
        | Js.undef => (st', Except.ok result)
        | p => (st', Except.ok p)

/-- `sendChatMessage(message, chartData)` from api.js: post to
`/chat/message` and return `response.reply`; any throw inside the `try`
(a failed request, or reading `.reply` off a nullish response) is caught
and replaced by the fixed apology string. -/
def sendChatMessage (t : Transport) (st : String)
    (message chartData : Js) : String × Js :=
  match post t st "/chat/message"
      (Js.obj [("message", message), ("chart", chartData)]) with
  | (st', Except.ok response) =>
    match jsGetProp response "reply" with
    | Except.ok v => (st', v)
    | Except.error _ => (st', Js.str "Üzgünüm, şu anda yanıt veremiyorum.")
  | (st', Except.error _) => (st', Js.str "Üzgünüm, şu anda yanıt veremiyorum.")

/-- A top-level call (`attempt = 0`), as issued by the `post`/`put`/`get`
wrappers, together with the network environment it runs against. -/
structure Call where
  t : Transport
  method : String
  path : String
  payload : Js

/-- The active origin after one top-level call. -/
def stepOrigin (st : String) (c : Call) : String :=
  (request c.t st c.method c.path c.payload 0).1

/-- The successive values of `activeBaseUrl` over a sequence of top-level
calls, starting from `st`. -/
def originTrace : String → List Call → List String
  | st, [] => [st]
  | st, c :: cs => st :: originTrace (stepOrigin st c) cs

/-- The number of mutations along a sequence of origin values. -/
def originChanges : List String → Nat
  | a :: b :: rest => (if a = b then 0 else 1) + originChanges (b :: rest)
  | _ => 0

/-- The spec's precedence for the surfaced message, stated as nested
checks in priority order: the response body's `error` field when truthy,
else its `message` field, else its `detail` field, else the failure's own
non-empty message text, else the fixed fallback string. (Spec-side
formulation, to be compared with `extractMessage`.) -/
def specMessagePrecedence (e : AxiosErr) : Js :=
  if truthy (respData e "error") then respData e "error"
  else if truthy (respData e "message") then respData e "message"
  else if truthy (respData e "detail") then respData e "detail"
  else if e.message ≠ "" then Js.str e.message
  else Js.str "İstek sırasında bir sorun oluştu. Lütfen tekrar dene."

/-- The code's test for a path that is already a fully qualified absolute
URL: an `http://` or `https://` prefix. -/
def isAbsoluteUrl (path : String) : Bool :=
  strStartsWith path "http://" || strStartsWith path "https://"

/-- The URL the claim predicts for a relative path: the active origin
without trailing slash, then the path prefixed by exactly one slash.
(Spec-side formulation, to be compared with `makeUrl`.) -/
def specJoinedUrl (base path : String) : String :=
  stripTrailingSlash base ++
    (if strStartsWith path "/" then path else "/" ++ path)

/-- The error carried by a response-less attempt: the axios error object of
a network-level failure. -/
def sampleNetErr : AxiosErr :=
  { response := none, code := some "ERR_NETWORK", message := "Network Error" }

/-- A network environment in which every attempt fails at the network
level. -/
def tNetDown : Transport := fun _ _ _ _ => AxiosOutcome.failure sampleNetErr

/-- A 404 HTTP response carried by a concrete axios failure. -/
def sample404Resp : HttpResponse :=
  { status := 404, data := Js.obj [("error", Js.str "Profil bulunamadı")] }

/-- The axios error of an attempt answered with HTTP 404. -/
def sample404Err : AxiosErr :=
  { response := some sample404Resp, code := none,
    message := "Request failed with status code 404" }

/-- A network environment in which every attempt is answered with a 404
response. -/
def tAll404 : Transport := fun _ _ _ _ => AxiosOutcome.failure sample404Err

/-- A network environment in which every attempt succeeds with a bare
response body that has no `cards` and no narrative fields. -/
def tOkEmpty : Transport :=
  fun _ _ _ _ => AxiosOutcome.success (Js.obj [("text", Js.str "özet")])

/-- Dropping the bindings of key `k` from a binding list: the two cases of
`List.filter_cons` specialized to the predicate used by `Js.set`. -/
theorem filter_ne_cons_drop (a : String × Js) (t : List (String × Js))
    (k : String) (ha : a.1 = k) :
    (a :: t).filter (fun p => p.1 != k) = t.filter (fun p => p.1 != k) := by
  simp [List.filter_cons, ha]

theorem filter_ne_cons_keep (a : String × Js) (t : List (String × Js))
    (k : String) (ha : ¬a.1 = k) :
    (a :: t).filter (fun p => p.1 != k)
      = a :: t.filter (fun p => p.1 != k) := by
  simp [List.filter_cons, ha]

/-- Rebinding a field and reading it back yields the new value
(list-level form). -/
theorem lookupField_filter_append_self (fields : List (String × Js))
    (k : String) (v : Js) :
    lookupField ((fields.filter (fun p => p.1 != k)) ++ [(k, v)]) k = v := by
  induction fields with
  | nil => simp [lookupField]
  | cons a t ih =>
    by_cases ha : a.1 = k
    · rw [filter_ne_cons_drop a t k ha]
      exact ih
    · rw [filter_ne_cons_keep a t k ha, List.cons_append]
      simp only [lookupField]
      rw [if_neg]
      · exact ih
      · simp [ha]

/-- Rebinding one field leaves lookups of any other key unchanged
(list-level form). -/
theorem lookupField_filter_append_other (fields : List (String × Js))
    (k k' : String) (v : Js) (h : k' ≠ k) :
    lookupField ((fields.filter (fun p => p.1 != k)) ++ [(k, v)]) k'
      = lookupField fields k' := by
  have hne : ¬(k == k') = true := by
    simp only [beq_iff_eq]
    exact fun hh => h (Eq.symm hh)
  induction fields with
  | nil =>
    simp only [List.filter_nil, List.nil_append, lookupField]
    rw [if_neg hne]
  | cons a t ih =>
    by_cases ha : a.1 = k
    · rw [filter_ne_cons_drop a t k ha, ih]
      simp only [lookupField]
      rw [if_neg]
      rw [ha]
      exact hne
    · rw [filter_ne_cons_keep a t k ha, List.cons_append]
      by_cases ha2 : a.1 = k'
      · simp [lookupField, ha2]
      · simp only [lookupField]
        rw [if_neg (by simp [ha2]), if_neg (by simp [ha2])]
        exact ih

/-- `(j.set k v).k = v`. -/
theorem jsGet_set_self (j : Js) (k : String) (v : Js) :
    jsGet (Js.set j k v) k = v := by
  cases j with
  | obj fields =>
    simp only [Js.set, jsGet]
    exact lookupField_filter_append_self fields k v
  | undef => simp only [Js.set, jsGet, lookupField]; rw [if_pos (by simp)]
  | null => simp only [Js.set, jsGet, lookupField]; rw [if_pos (by simp)]
  | bool b => simp only [Js.set, jsGet, lookupField]; rw [if_pos (by simp)]
  | num n => simp only [Js.set, jsGet, lookupField]; rw [if_pos (by simp)]
  | str s => simp only [Js.set, jsGet, lookupField]; rw [if_pos (by simp)]
  | arr l => simp only [Js.set, jsGet, lookupField]; rw [if_pos (by simp)]

/-- `(j.set k v).k' = j.k'` for a different key `k'`. -/
theorem jsGet_set_other (j : Js) (k k' : String) (v : Js) (h : k' ≠ k) :
    jsGet (Js.set j k v) k' = jsGet j k' := by
  have hne : ¬(k == k') = true := by
    simp only [beq_iff_eq]
    exact fun hh => h (Eq.symm hh)
  cases j with
  | obj fields =>
    simp only [Js.set, jsGet]
    exact lookupField_filter_append_other fields k k' v h
  | undef => simp only [Js.set, jsGet, lookupField]; rw [if_neg hne]
  | null => simp only [Js.set, jsGet, lookupField]; rw [if_neg hne]
  | bool b => simp only [Js.set, jsGet, lookupField]; rw [if_neg hne]
  | num n => simp only [Js.set, jsGet, lookupField]; rw [if_neg hne]
  | str s => simp only [Js.set, jsGet, lookupField]; rw [if_neg hne]
  | arr l => simp only [Js.set, jsGet, lookupField]; rw [if_neg hne]

/-- A network-classified error carries no HTTP response. -/
theorem response_none_of_isNetworkError (e : AxiosErr)
    (h : isNetworkError e = true) : e.response = none := by
  unfold isNetworkError at h
  cases hr : e.response with
  | none => rfl
  | some r => rw [hr] at h; simp at h

/-- A network-classified error cannot pass the 404-response test. -/
theorem respStatus404_of_isNetworkError (e : AxiosErr)
    (h : isNetworkError e = true) : respStatus404 e = false := by
  unfold respStatus404
  rw [response_none_of_isNetworkError e h]

/-- Any attempt numbered other than 0 settles in place: no retry, no origin
change, and the outcome consulted is exactly the one for that attempt at
the current origin. -/
theorem request_of_attempt_ne_zero (t : Transport) (st m p : String)
    (pl : Js) (attempt : Nat) (h : attempt ≠ 0) :
    request t st m p pl attempt
      = (st, settleOne m (t attempt m (makeUrl st p) pl)) := by
  have hb : (attempt == 0) = false := by simp [h]
  unfold request
  cases ht : t attempt m (makeUrl st p) pl with
  | success d => simp [ht, settleOne]
  | failure e =>
    simp [ht, settleOne, hb]
    split <;> rfl

/-- A fulfilled first attempt returns the decoded body and leaves the
active origin unchanged. -/
theorem request_zero_success (t : Transport) (st m p : String) (pl : Js)
    (d : Js) (ht : t 0 m (makeUrl st p) pl = AxiosOutcome.success d) :
    request t st m p pl 0 = (st, Except.ok d) := by
  unfold request
  simp [ht]

/-- A rejected first attempt that does not meet the retry condition settles
in place. -/
theorem request_zero_no_retry (t : Transport) (st m p : String) (pl : Js)
    (e : AxiosErr) (ht : t 0 m (makeUrl st p) pl = AxiosOutcome.failure e)
    (hc : (isNetworkError e && st == LOCAL_DEFAULT_URL) = false) :
    request t st m p pl 0 = (st, settleOne m (AxiosOutcome.failure e)) := by
  unfold request
  simp [ht, settleOne, hc]
  split <;> rfl

/-- A rejected first attempt that meets the retry condition switches the
active origin to the remote fallback and settles on the second attempt of
the same method, path and payload there. -/
theorem request_zero_retry (t : Transport) (m p : String) (pl : Js)
    (e : AxiosErr)
    (ht : t 0 m (makeUrl LOCAL_DEFAULT_URL p) pl = AxiosOutcome.failure e)
    (hn : isNetworkError e = true) :
    request t LOCAL_DEFAULT_URL m p pl 0
      = (REMOTE_FALLBACK_URL,
          settleOne m (t 1 m (makeUrl REMOTE_FALLBACK_URL p) pl)) := by
  unfold request
  simp only [ht]
  rw [dif_pos (by simp [hn])]
  exact request_of_attempt_ne_zero t REMOTE_FALLBACK_URL m p pl 1 one_ne_zero

/-- Every trace starts with its starting origin. -/
theorem originTrace_head (st : String) (cs : List Call) :
    ∃ rest, originTrace st cs = st :: rest := by
  cases cs with
  | nil => exact ⟨[], rfl⟩
  | cons c cs => exact ⟨originTrace (stepOrigin st c) cs, rfl⟩

/-- One call either leaves the active origin alone, or switches it from the
local default to the remote fallback. -/
theorem stepOrigin_cases (st : String) (c : Call) :
    stepOrigin st c = st ∨
      (st = LOCAL_DEFAULT_URL ∧ stepOrigin st c = REMOTE_FALLBACK_URL) := by
  unfold stepOrigin
  cases ht : c.t 0 c.method (makeUrl st c.path) c.payload with
  | success d =>
    rw [request_zero_success c.t st c.method c.path c.payload d ht]
    exact Or.inl rfl
  | failure e =>
    by_cases hc : (isNetworkError e && st == LOCAL_DEFAULT_URL) = true
    · have hst : st = LOCAL_DEFAULT_URL := by
        have := (Bool.and_eq_true _ _).mp hc
        exact beq_iff_eq.mp this.2
      have hn : isNetworkError e = true := ((Bool.and_eq_true _ _).mp hc).1
      subst hst
      rw [request_zero_retry c.t c.method c.path c.payload e ht hn]
      exact Or.inr ⟨rfl, rfl⟩
    · rw [request_zero_no_retry c.t st c.method c.path c.payload e ht
        (Bool.not_eq_true _ ▸ eq_false_of_ne_true hc)]
      exact Or.inl rfl

/-- A call starting anywhere but the local default never moves the origin. -/
theorem stepOrigin_of_ne_local (st : String) (c : Call)
    (h : st ≠ LOCAL_DEFAULT_URL) : stepOrigin st c = st := by
  rcases stepOrigin_cases st c with h1 | ⟨h1, _⟩
  · exact h1
  · exact absurd h1 h

/-- From any origin other than the local default, no sequence of calls ever
mutates the origin. -/
theorem originChanges_of_ne_local (cs : List Call) (st : String)
    (h : st ≠ LOCAL_DEFAULT_URL) : originChanges (originTrace st cs) = 0 := by
  induction cs generalizing st with
  | nil => rfl
  | cons c cs ih =>
    rw [originTrace, stepOrigin_of_ne_local st c h]
    obtain ⟨rest, hr⟩ := originTrace_head st cs
    rw [hr, originChanges, if_pos rfl, ← hr, ih st h]

/-- The remote fallback is a different origin string than the local
default. -/
theorem remote_ne_local : REMOTE_FALLBACK_URL ≠ LOCAL_DEFAULT_URL := by
  decide

/-- Over any sequence of top-level calls, the active origin is mutated at
most once. -/
theorem originChanges_le_one (cs : List Call) (st : String) :
    originChanges (originTrace st cs) ≤ 1 := by
  induction cs generalizing st with
  | nil => exact Nat.zero_le 1
  | cons c cs ih =>
    rw [originTrace]
    obtain ⟨rest, hr⟩ := originTrace_head (stepOrigin st c) cs
    rw [hr, originChanges, ← hr]
    rcases stepOrigin_cases st c with h1 | ⟨h1, h2⟩
    · rw [h1, if_pos rfl]
      simpa using ih st
    · by_cases hsame : st = stepOrigin st c
      · rw [← hsame, if_pos rfl]
        simpa using ih st
      · rw [if_neg hsame, h2,
          originChanges_of_ne_local cs REMOTE_FALLBACK_URL remote_ne_local]

/-- A network error satisfies the gateway's network classification. -/
theorem sampleNetErr_isNetworkError : isNetworkError sampleNetErr = true := by
  rfl

/-- From any origin, an attempt that does not meet the retry condition and
is not a GET-with-404 surfaces the extracted message. -/
theorem settleOne_network_failure (m : String) (e : AxiosErr)
    (hn : isNetworkError e = true) :
    settleOne m (AxiosOutcome.failure e)
      = Except.error (extractMessage (some e)) := by
  simp only [settleOne]
  rw [respStatus404_of_isNetworkError e hn, Bool.and_false]
  simp

/-- C1: a call to `request` whose first attempt against the primary
default origin rejects with a network-classified failure switches the
process-wide active origin to the remote fallback (exactly once: the final
origin is the fallback and the retried attempt changes nothing further),
and re-issues the very same request — same method, same path, same
payload — exactly once, as attempt 1 against the fallback origin, whose
settled outcome becomes the call's result. -/
theorem request_primary_network_failure_switches_and_retries
    (t : Transport) (m p : String) (pl : Js) (e : AxiosErr)
    (h0 : t 0 m (makeUrl LOCAL_DEFAULT_URL p) pl = AxiosOutcome.failure e)
    (hn : isNetworkError e = true) :
    request t LOCAL_DEFAULT_URL m p pl 0
        = request t REMOTE_FALLBACK_URL m p pl 1 ∧
    request t LOCAL_DEFAULT_URL m p pl 0
        = (REMOTE_FALLBACK_URL,
            settleOne m (t 1 m (makeUrl REMOTE_FALLBACK_URL p) pl)) := by
  have h2 := request_zero_retry t m p pl e h0 hn
  have h3 := request_of_attempt_ne_zero t REMOTE_FALLBACK_URL m p pl 1
    one_ne_zero
  exact ⟨h2.trans h3.symm, h2⟩

/-- Witness for C1 at a concrete input: local API down, natal-chart post. -/
theorem request_primary_network_failure_switches_and_retries_witness :
    request tNetDown LOCAL_DEFAULT_URL "post" "/natal-chart" Js.null 0
        = request tNetDown REMOTE_FALLBACK_URL "post" "/natal-chart" Js.null 1 ∧
    request tNetDown LOCAL_DEFAULT_URL "post" "/natal-chart" Js.null 0
        = (REMOTE_FALLBACK_URL,
            settleOne "post"
              (tNetDown 1 "post" (makeUrl REMOTE_FALLBACK_URL "/natal-chart")
                Js.null)) :=
  request_primary_network_failure_switches_and_retries tNetDown "post"
    "/natal-chart" Js.null sampleNetErr rfl rfl

/-- C2: the active origin is initialized once from configuration (absent
override: the local default; a supplied override: its trimmed,
slash-stripped value); over any sequence of top-level calls it is mutated
at most once; any mutation goes from the local default to the remote
fallback and nowhere else (so it never reverts); and once on the fallback,
every call issues its single attempt directly against the fallback origin
and leaves the origin unchanged. -/
theorem activeBaseUrl_mutated_at_most_once :
    (∀ (st : String) (cs : List Call),
        originChanges (originTrace st cs) ≤ 1) ∧
    (∀ (st : String) (c : Call), stepOrigin st c ≠ st →
        st = LOCAL_DEFAULT_URL ∧ stepOrigin st c = REMOTE_FALLBACK_URL) ∧
    (∀ (t : Transport) (m p : String) (pl : Js),
        request t REMOTE_FALLBACK_URL m p pl 0
          = (REMOTE_FALLBACK_URL,
              settleOne m (t 0 m (makeUrl REMOTE_FALLBACK_URL p) pl))) ∧
    initialActiveBaseUrl none = LOCAL_DEFAULT_URL := by
  refine ⟨fun st cs => originChanges_le_one cs st, ?_, ?_, ?_⟩
  · intro st c hne
    rcases stepOrigin_cases st c with h1 | ⟨h1, h2⟩
    · exact absurd h1 hne
    · exact ⟨h1, h2⟩
  · intro t m p pl
    cases ht : t 0 m (makeUrl REMOTE_FALLBACK_URL p) pl with
    | success d =>
      rw [request_zero_success t REMOTE_FALLBACK_URL m p pl d ht]
      rfl
    | failure e =>
      exact request_zero_no_retry t REMOTE_FALLBACK_URL m p pl e ht
        (by rw [beq_eq_false_iff_ne.mpr remote_ne_local, Bool.and_false])
  · decide

/-- Witness for C2 at a concrete input: once on the fallback origin, a call
attempts the fallback directly and the origin stays put. -/
theorem activeBaseUrl_mutated_at_most_once_witness :
    request tNetDown REMOTE_FALLBACK_URL "get" "/api/profile" Js.undef 0
      = (REMOTE_FALLBACK_URL,
          settleOne "get"
            (tNetDown 0 "get" (makeUrl REMOTE_FALLBACK_URL "/api/profile")
              Js.undef)) :=
  activeBaseUrl_mutated_at_most_once.2.2.1 tNetDown "get" "/api/profile"
    Js.undef

/-- C3: with the active origin anything other than the hardcoded local
default (for instance a configured override), a first-attempt
network-level failure is never retried against the fallback: it surfaces
to the caller as a thrown error carrying the extracted message; and a
fallback switch (any call that moves the origin) can only happen when the
active origin equals the local default exactly. -/
theorem request_custom_origin_never_falls_back
    (t : Transport) (st m p : String) (pl : Js) (e : AxiosErr)
    (hst : st ≠ LOCAL_DEFAULT_URL)
    (h0 : t 0 m (makeUrl st p) pl = AxiosOutcome.failure e)
    (hn : isNetworkError e = true) :
    request t st m p pl 0 = (st, Except.error (extractMessage (some e))) ∧
    ∀ (t' : Transport) (st' m' p' : String) (pl' : Js),
      (request t' st' m' p' pl' 0).1 ≠ st' → st' = LOCAL_DEFAULT_URL := by
  constructor
  · rw [request_zero_no_retry t st m p pl e h0
      (by rw [beq_eq_false_iff_ne.mpr hst, Bool.and_false])]
    rw [settleOne_network_failure m e hn]
  · intro t' st' m' p' pl' hne
    rcases stepOrigin_cases st' (Call.mk t' m' p' pl') with h1 | ⟨h1, _⟩
    · exact absurd h1 hne
    · exact h1

/-- Witness for C3 at a concrete input: a custom origin, local network
failure, no fallback. -/
theorem request_custom_origin_never_falls_back_witness :
    request tNetDown "http://localhost:8080" "post" "/natal-chart" Js.null 0
      = ("http://localhost:8080",
          Except.error (extractMessage (some sampleNetErr))) :=
  (request_custom_origin_never_falls_back tNetDown "http://localhost:8080"
    "post" "/natal-chart" Js.null sampleNetErr (by decide) rfl rfl).1

/-- Truthiness of a string value is its non-emptiness. -/
theorem truthy_str (s : String) : truthy (Js.str s) = (s != "") := rfl

/-- An error that did receive an HTTP response is not network-classified. -/
theorem isNetworkError_of_response_some (e : AxiosErr) (r : HttpResponse)
    (h : e.response = some r) : isNetworkError e = false := by
  unfold isNetworkError
  rw [h]
  rfl

/-- The 404 test succeeds exactly on a present response with status 404. -/
theorem respStatus404_of_status (e : AxiosErr) (r : HttpResponse)
    (h : e.response = some r) (hs : r.status = 404) :
    respStatus404 e = true := by
  unfold respStatus404
  rw [h]
  simp [hs]

/-- C4: when the attempt of a call fails with an HTTP 404 response, a GET
call resolves to `null` (an empty result, no error raised), while a POST
or PUT call throws the extracted error message to the caller. -/
theorem request_get_404_null_write_404_error
    (t : Transport) (st p : String) (pl : Js) (eg ep eu : AxiosErr)
    (rg rp ru : HttpResponse)
    (hg : t 0 "get" (makeUrl st p) pl = AxiosOutcome.failure eg)
    (hgr : eg.response = some rg) (hgs : rg.status = 404)
    (hp : t 0 "post" (makeUrl st p) pl = AxiosOutcome.failure ep)
    (hpr : ep.response = some rp) (hps : rp.status = 404)
    (hu : t 0 "put" (makeUrl st p) pl = AxiosOutcome.failure eu)
    (hur : eu.response = some ru) (hus : ru.status = 404) :
    request t st "get" p pl 0 = (st, Except.ok Js.null) ∧
    request t st "post" p pl 0
        = (st, Except.error (extractMessage (some ep))) ∧
    request t st "put" p pl 0
        = (st, Except.error (extractMessage (some eu))) := by
  refine ⟨?_, ?_, ?_⟩
  · rw [request_zero_no_retry t st "get" p pl eg hg
      (by rw [isNetworkError_of_response_some eg rg hgr, Bool.false_and])]
    simp only [settleOne]
    rw [respStatus404_of_status eg rg hgr hgs]
    simp
  · rw [request_zero_no_retry t st "post" p pl ep hp
      (by rw [isNetworkError_of_response_some ep rp hpr, Bool.false_and])]
    simp only [settleOne]
    rw [show (("post" : String) == "get") = false by decide, Bool.false_and]
    simp
  · rw [request_zero_no_retry t st "put" p pl eu hu
      (by rw [isNetworkError_of_response_some eu ru hur, Bool.false_and])]
    simp only [settleOne]
    rw [show (("put" : String) == "get") = false by decide, Bool.false_and]
    simp

/-- Witness for C4 at a concrete input: a 404 on the profile route. -/
theorem request_get_404_null_write_404_error_witness :
    request tAll404 LOCAL_DEFAULT_URL "get" "/api/profile" Js.undef 0
        = (LOCAL_DEFAULT_URL, Except.ok Js.null) ∧
    request tAll404 LOCAL_DEFAULT_URL "post" "/api/profile" Js.undef 0
        = (LOCAL_DEFAULT_URL,
            Except.error (extractMessage (some sample404Err))) ∧
    request tAll404 LOCAL_DEFAULT_URL "put" "/api/profile" Js.undef 0
        = (LOCAL_DEFAULT_URL,
            Except.error (extractMessage (some sample404Err))) :=
  request_get_404_null_write_404_error tAll404 LOCAL_DEFAULT_URL
    "/api/profile" Js.undef sample404Err sample404Err sample404Err
    sample404Resp sample404Resp sample404Resp
    rfl rfl rfl rfl rfl rfl rfl rfl rfl

/-- C5: every failed attempt surfaced as an error carries exactly the
message selected by the spec's precedence — body `error` field, else body
`message` field, else body `detail` field, else the failure's own message
text, else the fixed fallback string — both as a statement about the
normalizer on every error object, and end-to-end through `request` for a
surfaced failure. -/
theorem surfaced_error_message_precedence
    (t : Transport) (st m p : String) (pl : Js) (e : AxiosErr)
    (hf : t 0 m (makeUrl st p) pl = AxiosOutcome.failure e)
    (hnr : (isNetworkError e && st == LOCAL_DEFAULT_URL) = false)
    (h404 : (m == "get" && respStatus404 e) = false) :
    request t st m p pl 0 = (st, Except.error (specMessagePrecedence e)) ∧
    ∀ e' : AxiosErr, extractMessage (some e') = specMessagePrecedence e' := by
  have hext : ∀ e' : AxiosErr,
      extractMessage (some e') = specMessagePrecedence e' := by
    intro e'
    by_cases h1 : truthy (respData e' "error") = true
    · simp [extractMessage, specMessagePrecedence, jsOr, h1]
    · rw [Bool.not_eq_true] at h1
      by_cases h2 : truthy (respData e' "message") = true
      · simp [extractMessage, specMessagePrecedence, jsOr, h1, h2]
      · rw [Bool.not_eq_true] at h2
        by_cases h3 : truthy (respData e' "detail") = true
        · simp [extractMessage, specMessagePrecedence, jsOr, h1, h2, h3]
        · rw [Bool.not_eq_true] at h3
          by_cases h4 : e'.message = ""
          · simp [extractMessage, specMessagePrecedence, jsOr, truthy_str,
              h1, h2, h3, h4]
          · simp [extractMessage, specMessagePrecedence, jsOr, truthy_str,
              h1, h2, h3, h4]
  constructor
  · rw [request_zero_no_retry t st m p pl e hf hnr]
    simp only [settleOne]
    rw [h404]
    simp [hext e]
  · exact hext

/-- Witness for C5 at a concrete input: a 500 response whose body carries
an `error` field. -/
theorem surfaced_error_message_precedence_witness :
    request tAll404 "https://astrolog-ai.onrender.com" "post" "/interpretation"
        Js.null 0
      = ("https://astrolog-ai.onrender.com",
          Except.error (specMessagePrecedence sample404Err)) :=
  (surfaced_error_message_precedence tAll404 "https://astrolog-ai.onrender.com"
    "post" "/interpretation" Js.null sample404Err rfl (by decide)
    (by decide)).1

/-- C6: when the first attempt fails at the network level from the primary
default origin and the retried attempt against the fallback origin also
fails at the network level, the call surfaces the second failure's
extracted message as an error; no further retry happens, and the call's
result consults the outcomes of attempts 0 and 1 only — any environment
agreeing on those two attempts produces the identical result, so a logical
call performs at most two attempts. -/
theorem second_network_failure_surfaces_error
    (t : Transport) (m p : String) (pl : Js) (e0 e1 : AxiosErr)
    (h0 : t 0 m (makeUrl LOCAL_DEFAULT_URL p) pl = AxiosOutcome.failure e0)
    (hn0 : isNetworkError e0 = true)
    (h1 : t 1 m (makeUrl REMOTE_FALLBACK_URL p) pl = AxiosOutcome.failure e1)
    (hn1 : isNetworkError e1 = true) :
    request t LOCAL_DEFAULT_URL m p pl 0
        = (REMOTE_FALLBACK_URL, Except.error (extractMessage (some e1))) ∧
    ∀ t' : Transport,
      t' 0 m (makeUrl LOCAL_DEFAULT_URL p) pl
          = t 0 m (makeUrl LOCAL_DEFAULT_URL p) pl →
      t' 1 m (makeUrl REMOTE_FALLBACK_URL p) pl
          = t 1 m (makeUrl REMOTE_FALLBACK_URL p) pl →
      request t' LOCAL_DEFAULT_URL m p pl 0
          = request t LOCAL_DEFAULT_URL m p pl 0 := by
  have hres : request t LOCAL_DEFAULT_URL m p pl 0
      = (REMOTE_FALLBACK_URL, Except.error (extractMessage (some e1))) := by
    rw [request_zero_retry t m p pl e0 h0 hn0, h1,
      settleOne_network_failure m e1 hn1]
  refine ⟨hres, ?_⟩
  intro t' ha0 ha1
  rw [request_zero_retry t' m p pl e0 (ha0.trans h0) hn0, ha1, h1,
    settleOne_network_failure m e1 hn1, hres]

/-- Witness for C6 at a concrete input: both origins unreachable. -/
theorem second_network_failure_surfaces_error_witness :
    request tNetDown LOCAL_DEFAULT_URL "post" "/calculate_synastry_chart"
        Js.null 0
      = (REMOTE_FALLBACK_URL,
          Except.error (extractMessage (some sampleNetErr))) :=
  (second_network_failure_surfaces_error tNetDown "post"
    "/calculate_synastry_chart" Js.null sampleNetErr sampleNetErr
    rfl rfl rfl rfl).1

/-- C7: `sendChatMessage` never throws — its result type is total — and
whenever the underlying posted request fails for any reason, its result is
the fixed apology string instead of the propagated error. -/
theorem sendChatMessage_failure_yields_apology
    (t : Transport) (st : String) (message chartData : Js) (err : Js)
    (h : (post t st "/chat/message"
        (Js.obj [("message", message), ("chart", chartData)])).2
      = Except.error err) :
    (sendChatMessage t st message chartData).2
      = Js.str "Üzgünüm, şu anda yanıt veremiyorum." := by
  unfold sendChatMessage
  rcases hp : post t st "/chat/message"
      (Js.obj [("message", message), ("chart", chartData)]) with ⟨st', r⟩
  rw [hp] at h
  cases r with
  | ok v => simp at h
  | error e2 => rfl

/-- Witness for C7 at a concrete input: both origins down, chat absorbed. -/
theorem sendChatMessage_failure_yields_apology_witness :
    (sendChatMessage tNetDown LOCAL_DEFAULT_URL (Js.str "selam") Js.null).2
      = Js.str "Üzgünüm, şu anda yanıt veremiyorum." :=
  sendChatMessage_failure_yields_apology tNetDown LOCAL_DEFAULT_URL
    (Js.str "selam") Js.null (extractMessage (some sampleNetErr))
    (by
      show (request tNetDown LOCAL_DEFAULT_URL "post" "/chat/message"
          (Js.obj [("message", Js.str "selam"), ("chart", Js.null)]) 0).2 = _
      rw [request_zero_retry tNetDown "post" "/chat/message"
          (Js.obj [("message", Js.str "selam"), ("chart", Js.null)])
          sampleNetErr rfl sampleNetErr_isNetworkError,
        show tNetDown 1 "post" (makeUrl REMOTE_FALLBACK_URL "/chat/message")
            (Js.obj [("message", Js.str "selam"), ("chart", Js.null)])
          = AxiosOutcome.failure sampleNetErr from rfl,
        settleOne_network_failure "post" sampleNetErr
          sampleNetErr_isNetworkError])

/-- C8: a string argument to `getInterpretation` that the JSON parser
rejects does not make the call throw at the parsing step: the prepared
chart degrades to `null` and the call proceeds exactly as a call with a
`null` chart, posting `null` in both the `chart` and `chart_data` fields
of the request body. -/
theorem getInterpretation_parse_failure_null_chart
    (parse : String → Option Js) (t : Transport) (st s : String)
    (h : parse s = none) :
    prepareChart parse (Js.str s) = Js.null ∧
    getInterpretation parse t st (Js.str s)
        = getInterpretation parse t st Js.null ∧
    getInterpretation parse t st (Js.str s)
        = (match request t st "post" "/interpretation"
              (Js.obj [("chart", Js.null), ("chart_data", Js.null)]) 0 with
           | (st', Except.ok data) =>
             (st', Except.ok (interpretationPrepared data))
           | (st', Except.error e) => (st', Except.error e)) := by
  have hp : prepareChart parse (Js.str s) = Js.null := by
    simp [prepareChart, h]
  refine ⟨hp, ?_, ?_⟩
  · simp [getInterpretation, prepareChart, h]
  · simp [getInterpretation, prepareChart, h, post]

/-- Witness for C8 at a concrete input: an unparseable chart string. -/
theorem getInterpretation_parse_failure_null_chart_witness :
    prepareChart (fun _ => none) (Js.str "bozuk veri") = Js.null ∧
    getInterpretation (fun _ => none) tNetDown REMOTE_FALLBACK_URL
        (Js.str "bozuk veri")
      = getInterpretation (fun _ => none) tNetDown REMOTE_FALLBACK_URL
          Js.null :=
  ⟨(getInterpretation_parse_failure_null_chart (fun _ => none) tNetDown
      REMOTE_FALLBACK_URL "bozuk veri" rfl).1,
   (getInterpretation_parse_failure_null_chart (fun _ => none) tNetDown
      REMOTE_FALLBACK_URL "bozuk veri" rfl).2.1⟩

/-- A truthy value is not the `null` value. -/
theorem ne_null_of_truthy (j : Js) (h : truthy j = true) : j ≠ Js.null := by
  intro hh
  rw [hh] at h
  exact absurd h (by decide)

/-- C9: a successful `getInterpretation` call returns the post-processed
response object: it always carries a `life_bundle` equal to the bundle
built from the raw response, its `cards.life` entry is always truthy (in
particular non-null), and when the raw response's `cards.life` is missing
(falsy) that entry is exactly the backfilled default display card — title
"Hayat Anlatısı", narrative main text from the legacy text, empty
reasons/actions/tags, confidence label "Dengeli". -/
theorem getInterpretation_success_life_bundle_and_card
    (parse : String → Option Js) (t : Transport) (st : String)
    (chartData data : Js)
    (hs : t 0 "post" (makeUrl st "/interpretation")
        (Js.obj [("chart", prepareChart parse chartData),
          ("chart_data", prepareChart parse chartData)])
      = AxiosOutcome.success data) :
    getInterpretation parse t st chartData
        = (st, Except.ok (interpretationPrepared data)) ∧
    jsGet (interpretationPrepared data) "life_bundle"
        = buildLifeBundle data "primary" ∧
    truthy (jsGet (jsGet (interpretationPrepared data) "cards") "life")
        = true ∧
    jsGet (jsGet (interpretationPrepared data) "cards") "life" ≠ Js.null ∧
    (truthy (jsGet (jsGet data "cards") "life") = false →
      jsGet (jsGet (interpretationPrepared data) "cards") "life"
        = fallbackLifeCard (legacyTextOf data)) := by
  have hcall : getInterpretation parse t st chartData
      = (st, Except.ok (interpretationPrepared data)) := by
    have h1 : post t st "/interpretation"
        (Js.obj [("chart", prepareChart parse chartData),
          ("chart_data", prepareChart parse chartData)])
      = (st, Except.ok data) :=
      request_zero_success t st "post" "/interpretation" _ data hs
    simp [getInterpretation, h1]
  have hrest : jsGet (interpretationPrepared data) "life_bundle"
        = buildLifeBundle data "primary" ∧
      truthy (jsGet (jsGet (interpretationPrepared data) "cards") "life")
        = true ∧
      jsGet (jsGet (interpretationPrepared data) "cards") "life"
        ≠ Js.null ∧
      (truthy (jsGet (jsGet data "cards") "life") = false →
        jsGet (jsGet (interpretationPrepared data) "cards") "life"
          = fallbackLifeCard (legacyTextOf data)) := by
    by_cases hlife : truthy (jsGet (jsGet data "cards") "life") = true
    · have hres : interpretationPrepared data
          = Js.set data "life_bundle" (buildLifeBundle data "primary") := by
        simp only [interpretationPrepared]
        rw [if_pos hlife]
      refine ⟨?_, ?_, ?_, ?_⟩
      · rw [hres, jsGet_set_self]
      · rw [hres,
          jsGet_set_other data "life_bundle" "cards" _ (by decide)]
        exact hlife
      · rw [hres,
          jsGet_set_other data "life_bundle" "cards" _ (by decide)]
        exact ne_null_of_truthy _ hlife
      · intro hfalse
        exact absurd (hlife.symm.trans hfalse) (by decide)
    · have hres : interpretationPrepared data
          = Js.set (Js.set data "life_bundle" (buildLifeBundle data "primary"))
              "cards"
              (Js.set (jsOr (jsGet data "cards") (Js.obj [])) "life"
                (fallbackLifeCard (legacyTextOf data))) := by
        simp only [interpretationPrepared]
        rw [if_neg hlife]
      refine ⟨?_, ?_, ?_, ?_⟩
      · rw [hres,
          jsGet_set_other _ "cards" "life_bundle" _ (by decide),
          jsGet_set_self]
      · rw [hres, jsGet_set_self, jsGet_set_self]
        rfl
      · rw [hres, jsGet_set_self, jsGet_set_self]
        simp [fallbackLifeCard]
      · intro _
        rw [hres, jsGet_set_self, jsGet_set_self]
  exact ⟨hcall, hrest.1, hrest.2.1, hrest.2.2.1, hrest.2.2.2⟩

/-- Witness for C9 at a concrete input: a response without `cards.life`
gets the default card backfilled. -/
theorem getInterpretation_success_life_bundle_and_card_witness :
    getInterpretation (fun _ => none) tOkEmpty LOCAL_DEFAULT_URL Js.null
        = (LOCAL_DEFAULT_URL,
            Except.ok
              (interpretationPrepared (Js.obj [("text", Js.str "özet")]))) ∧
    jsGet (interpretationPrepared (Js.obj [("text", Js.str "özet")]))
        "life_bundle"
      = buildLifeBundle (Js.obj [("text", Js.str "özet")]) "primary" :=
  ⟨(getInterpretation_success_life_bundle_and_card (fun _ => none) tOkEmpty
      LOCAL_DEFAULT_URL Js.null (Js.obj [("text", Js.str "özet")]) rfl).1,
   (getInterpretation_success_life_bundle_and_card (fun _ => none) tOkEmpty
      LOCAL_DEFAULT_URL Js.null (Js.obj [("text", Js.str "özet")]) rfl).2.1⟩

/-- Counterexample to C10 as stated: the empty string is not an absolute
URL, yet `makeUrl` returns the base verbatim for it instead of the
origin-plus-one-slash join the claim predicts for every relative path. -/
theorem makeUrl_empty_path_counterexample :
    isAbsoluteUrl "" = false ∧
    makeUrl LOCAL_DEFAULT_URL "" = LOCAL_DEFAULT_URL ∧
    makeUrl LOCAL_DEFAULT_URL "" ≠ specJoinedUrl LOCAL_DEFAULT_URL "" := by
  refine ⟨rfl, rfl, ?_⟩
  decide

/-- C10 (amended): an absolute `http(s)://` path is used verbatim; a
nonempty relative path yields the active origin without trailing slash
concatenated with the path prefixed by exactly one slash; the empty path
returns the base unchanged. -/
theorem makeUrl_absolute_verbatim_relative_joined (base path : String) :
    (isAbsoluteUrl path = true → makeUrl base path = path) ∧
    (isAbsoluteUrl path = false → path ≠ "" →
        makeUrl base path = specJoinedUrl base path) ∧
    makeUrl base "" = base := by
  refine ⟨?_, ?_, ?_⟩
  · intro h
    by_cases hp : path = ""
    · rw [hp] at h
      exact absurd h (by decide)
    · unfold makeUrl
      rw [if_neg hp,
        if_pos (show (strStartsWith path "http://"
            || strStartsWith path "https://") = true from h)]
  · intro h hne
    have h' : ¬(strStartsWith path "http://"
        || strStartsWith path "https://") = true := by
      rw [Bool.not_eq_true]
      exact h
    unfold makeUrl specJoinedUrl stripTrailingSlash
    rw [if_neg hne, if_neg h']
  · unfold makeUrl
    rw [if_pos rfl]

/-- Witness for the amended C10 at concrete inputs: a relative route and
an absolute URL. -/
theorem makeUrl_absolute_verbatim_relative_joined_witness :
    makeUrl LOCAL_DEFAULT_URL "/natal-chart"
        = specJoinedUrl LOCAL_DEFAULT_URL "/natal-chart" ∧
    makeUrl LOCAL_DEFAULT_URL "https://astrolog-ai.onrender.com/x"
        = "https://astrolog-ai.onrender.com/x" :=
  ⟨(makeUrl_absolute_verbatim_relative_joined LOCAL_DEFAULT_URL
      "/natal-chart").2.1 (by decide) (by decide),
   (makeUrl_absolute_verbatim_relative_joined LOCAL_DEFAULT_URL
      "https://astrolog-ai.onrender.com/x").1 (by decide)⟩

end Api
